import Mathlib

/-!
Verification development for `StencilApp.cpp` (Chapter 11 Stenciling demo).

Shallow embedding conventions:
* floating-point scalars are modelled as exact rationals (`ℚ`); a numeric
  literal of the source (`0.25f`, `2.0f`, `3.1415926535f`, ...) is read at its
  decimal face value;
* DirectXMath matrices use the row-vector convention of the source: a point
  `v` is transformed as `v * M`, and `A * B` applies `A` first;
* the values `cosf`/`sinf` return for the fixed rotation angle are abstracted
  as parameters (`rc`, `rs`), since no claim depends on them;
* stateful member functions become pure functions from the touched member
  state to the updated member state;
* a C++ null-pointer dereference is modelled by `Option`: `none` marks the
  point where the program would crash.
-/

/-- Source constant `const int gNumFrameResources = 3;`. -/
def gNumFrameResources : Int := 3

/-- Embeds `XMFLOAT3` (three float components). -/
structure Float3 where
  x : ℚ
  y : ℚ
  z : ℚ
deriving DecidableEq, Repr, Inhabited

/-- Embeds `XMVECTOR` / `XMFLOAT4` (four float components, row vector). -/
structure Float4 where
  x : ℚ
  y : ℚ
  z : ℚ
  w : ℚ
deriving DecidableEq, Repr, Inhabited

/-- Embeds `XMFLOAT4X4` / `XMMATRIX`; field `mij` is the source's `_ij` entry. -/
structure Float4x4 where
  m11 : ℚ
  m12 : ℚ
  m13 : ℚ
  m14 : ℚ
  m21 : ℚ
  m22 : ℚ
  m23 : ℚ
  m24 : ℚ
  m31 : ℚ
  m32 : ℚ
  m33 : ℚ
  m34 : ℚ
  m41 : ℚ
  m42 : ℚ
  m43 : ℚ
  m44 : ℚ
deriving DecidableEq, Repr, Inhabited

/-- Matrix product in the DirectXMath row-vector convention: `A * B` is the
transform applying `A` first, then `B`. -/
def matMul (A B : Float4x4) : Float4x4 where
  m11 := A.m11 * B.m11 + A.m12 * B.m21 + A.m13 * B.m31 + A.m14 * B.m41
  m12 := A.m11 * B.m12 + A.m12 * B.m22 + A.m13 * B.m32 + A.m14 * B.m42
  m13 := A.m11 * B.m13 + A.m12 * B.m23 + A.m13 * B.m33 + A.m14 * B.m43
  m14 := A.m11 * B.m14 + A.m12 * B.m24 + A.m13 * B.m34 + A.m14 * B.m44
  m21 := A.m21 * B.m11 + A.m22 * B.m21 + A.m23 * B.m31 + A.m24 * B.m41
  m22 := A.m21 * B.m12 + A.m22 * B.m22 + A.m23 * B.m32 + A.m24 * B.m42
  m23 := A.m21 * B.m13 + A.m22 * B.m23 + A.m23 * B.m33 + A.m24 * B.m43
  m24 := A.m21 * B.m14 + A.m22 * B.m24 + A.m23 * B.m34 + A.m24 * B.m44
  m31 := A.m31 * B.m11 + A.m32 * B.m21 + A.m33 * B.m31 + A.m34 * B.m41
  m32 := A.m31 * B.m12 + A.m32 * B.m22 + A.m33 * B.m32 + A.m34 * B.m42
  m33 := A.m31 * B.m13 + A.m32 * B.m23 + A.m33 * B.m33 + A.m34 * B.m43
  m34 := A.m31 * B.m14 + A.m32 * B.m24 + A.m33 * B.m34 + A.m34 * B.m44
  m41 := A.m41 * B.m11 + A.m42 * B.m21 + A.m43 * B.m31 + A.m44 * B.m41
  m42 := A.m41 * B.m12 + A.m42 * B.m22 + A.m43 * B.m32 + A.m44 * B.m42
  m43 := A.m41 * B.m13 + A.m42 * B.m23 + A.m43 * B.m33 + A.m44 * B.m43
  m44 := A.m41 * B.m14 + A.m42 * B.m24 + A.m43 * B.m34 + A.m44 * B.m44

instance : Mul Float4x4 := ⟨matMul⟩

theorem Float4x4.mul_def (A B : Float4x4) : A * B = matMul A B := rfl

/-- Row vector times matrix: how DirectXMath transforms a point. -/
def vec4Transform (v : Float4) (M : Float4x4) : Float4 where
  x := v.x * M.m11 + v.y * M.m21 + v.z * M.m31 + v.w * M.m41
  y := v.x * M.m12 + v.y * M.m22 + v.z * M.m32 + v.w * M.m42
  z := v.x * M.m13 + v.y * M.m23 + v.z * M.m33 + v.w * M.m43
  w := v.x * M.m14 + v.y * M.m24 + v.z * M.m34 + v.w * M.m44

/-- Embeds `MathHelper::Identity4x4()`. -/
def identity4x4 : Float4x4 :=
  ⟨1, 0, 0, 0, 0, 1, 0, 0, 0, 0, 1, 0, 0, 0, 0, 1⟩

/-- Embeds `XMMatrixTranslation(x, y, z)`. -/
def xmMatrixTranslation (x y z : ℚ) : Float4x4 :=
  ⟨1, 0, 0, 0, 0, 1, 0, 0, 0, 0, 1, 0, x, y, z, 1⟩

/-- Embeds `XMMatrixScaling(x, y, z)`. -/
def xmMatrixScaling (x y z : ℚ) : Float4x4 :=
  ⟨x, 0, 0, 0, 0, y, 0, 0, 0, 0, z, 0, 0, 0, 0, 1⟩

/-- Embeds `XMMatrixRotationY(angle)`, with `cosf angle` and `sinf angle` abstracted
as the parameters `c` and `s`. -/
def xmMatrixRotationY (c s : ℚ) : Float4x4 :=
  ⟨c, 0, -s, 0, 0, 1, 0, 0, s, 0, c, 0, 0, 0, 0, 1⟩

/-- Embeds `XMMatrixTranspose(M)`. -/
def xmMatrixTranspose (M : Float4x4) : Float4x4 :=
  ⟨M.m11, M.m21, M.m31, M.m41,
   M.m12, M.m22, M.m32, M.m42,
   M.m13, M.m23, M.m33, M.m43,
   M.m14, M.m24, M.m34, M.m44⟩

/-- Embeds `XMMatrixReflect(plane)` for an already-normalized plane `(a, b, c, d)`
(every plane the demo passes in has a unit normal, so `XMPlaneNormalize` is
the identity on them).  Rows follow the DirectXMath implementation:
`M.r[i] = P[i] * (-2a, -2b, -2c, 0) + identityRow i`. -/
def xmMatrixReflect (P : Float4) : Float4x4 :=
  ⟨1 - 2 * P.x * P.x, -2 * P.x * P.y, -2 * P.x * P.z, 0,
   -2 * P.y * P.x, 1 - 2 * P.y * P.y, -2 * P.y * P.z, 0,
   -2 * P.z * P.x, -2 * P.z * P.y, 1 - 2 * P.z * P.z, 0,
   -2 * P.w * P.x, -2 * P.w * P.y, -2 * P.w * P.z, 1⟩

/-- Embeds `XMMatrixShadow(plane, light)` for an already-normalized plane:
`M[i][j] = dot(P, L) * δ(i,j) - P[i] * L[j]`, following the DirectXMath
implementation (the only plane passed in, `(0,1,0,0)`, is unit). -/
def xmMatrixShadow (P L : Float4) : Float4x4 :=
  let dot := P.x * L.x + P.y * L.y + P.z * L.z + P.w * L.w
  ⟨dot - P.x * L.x, -P.x * L.y, -P.x * L.z, -P.x * L.w,
   -P.y * L.x, dot - P.y * L.y, -P.y * L.z, -P.y * L.w,
   -P.z * L.x, -P.z * L.y, dot - P.z * L.z, -P.z * L.w,
   -P.w * L.x, -P.w * L.y, -P.w * L.z, dot - P.w * L.w⟩

/-- Embeds `enum class ReflectionSide`. -/
inductive ReflectionSide where
  | Front
  | Back
  | Left
  | Right
  | Top
  | Bottom
deriving DecidableEq, Repr, Inhabited

/-- Embeds `enum class RenderLayer` (without its `Count` sentinel). -/
inductive RenderLayer where
  | Opaque
  | MirrorsTop
  | MirrorsBottom
  | MirrorsRight
  | MirrorsLeft
  | MirrorsFront
  | MirrorsBack
  | ReflectedTop
  | ReflectedBottom
  | ReflectedRight
  | ReflectedLeft
  | ReflectedFront
  | ReflectedBack
  | Transparent
  | Shadow
deriving DecidableEq, Repr, Inhabited

/-- Embeds `StencilApp::FindMirrorPlane`. -/
def findMirrorPlane (side : ReflectionSide) : Float4 :=
  match side with
  | .Top => ⟨0, 1, 0, 0⟩
  | .Bottom => ⟨0, 1, 0, 0⟩
  | .Back => ⟨0, 0, 1, 0⟩
  | .Front => ⟨0, 0, 1, 0⟩
  | .Left => ⟨1, 0, 0, 0⟩
  | .Right => ⟨1, 0, 0, 0⟩

/-- Embeds `StencilApp::FindMirrorOffset`. -/
def findMirrorOffset (side : ReflectionSide) : Float4x4 :=
  match side with
  | .Top => xmMatrixTranslation 0 8 0
  | .Bottom => xmMatrixTranslation 0 (-8) 0
  | .Back => xmMatrixTranslation 0 0 16
  | .Front => xmMatrixTranslation 0 0 0
  | .Left => xmMatrixTranslation (-8) 0 0
  | .Right => xmMatrixTranslation 8 0 0

/-- Embeds `StencilApp::IsPastMirrorPlane`: per side, if the relevant translation
entry of `worldMatrix` is strictly past a literal threshold the function
returns the zero-scale matrix, otherwise the unit-scale matrix. -/
def isPastMirrorPlane (worldMatrix : Float4x4) (side : ReflectionSide) : Float4x4 :=
  match side with
  | .Top => if worldMatrix.m42 > 4 then xmMatrixScaling 0 0 0 else xmMatrixScaling 1 1 1
  | .Bottom => if worldMatrix.m42 < -4 then xmMatrixScaling 0 0 0 else xmMatrixScaling 1 1 1
  | .Left => if worldMatrix.m41 < -4 then xmMatrixScaling 0 0 0 else xmMatrixScaling 1 1 1
  | .Right => if worldMatrix.m41 > 4 then xmMatrixScaling 0 0 0 else xmMatrixScaling 1 1 1
  | .Front => if worldMatrix.m43 < 0 then xmMatrixScaling 0 0 0 else xmMatrixScaling 1 1 1
  | .Back => if worldMatrix.m43 > 8 then xmMatrixScaling 0 0 0 else xmMatrixScaling 1 1 1

/-! ### Camera orbit input (`StencilApp::OnMouseMove`) -/

/-- Constant `MathHelper::Pi` (literal `3.1415926535f` read at face value).
Modelled from the spec: `Common/MathHelper.h` is not under `src/`; the spec
describes the camera math as "simple I/O glue" using this constant. -/
def mathHelperPi : ℚ := 3.1415926535

/-- Constant `XM_PI` as used by `XMConvertToRadians` (DirectXMath constant
`3.141592654f`, read at face value). -/
def xmPi : ℚ := 3.141592654

/-- Embeds `XMConvertToRadians(x) = x * (XM_PI / 180)`. -/
def xmConvertToRadians (degrees : ℚ) : ℚ := degrees * (xmPi / 180)

/-- Modelled from the spec: `MathHelper::Clamp` lives in
`Common/MathHelper.h`, which is not under `src/`; the spec says the polar
angle and radius are "clamped" to their ranges, so this is the standard
clamp `x < low ? low : (x > high ? high : x)`. -/
def mathHelperClamp (x low high : ℚ) : ℚ :=
  if x < low then low else if x > high then high else x

/-- The camera/mouse member state touched by `OnMouseMove`. -/
structure CameraState where
  mTheta : ℚ
  mPhi : ℚ
  mRadius : ℚ
  mLastMousePosX : ℤ
  mLastMousePosY : ℤ
deriving DecidableEq, Repr

/-- Mouse button state (`btnState & MK_LBUTTON`, `btnState & MK_RBUTTON`). -/
structure MouseButtons where
  lbutton : Bool
  rbutton : Bool
deriving DecidableEq, Repr

/-- Embeds `StencilApp::OnMouseMove`. -/
def onMouseMove (btnState : MouseButtons) (x y : ℤ) (s : CameraState) : CameraState :=
  if btnState.lbutton then
    let dx := xmConvertToRadians ((1 / 4 : ℚ) * ((x : ℚ) - (s.mLastMousePosX : ℚ)))
    let dy := xmConvertToRadians ((1 / 4 : ℚ) * ((y : ℚ) - (s.mLastMousePosY : ℚ)))
    let theta := s.mTheta + dx
    let phi := s.mPhi + dy
    let phi := mathHelperClamp phi (1 / 10) (mathHelperPi - 1 / 10)
    { s with mTheta := theta, mPhi := phi, mLastMousePosX := x, mLastMousePosY := y }
  else if btnState.rbutton then
    let dx := (1 / 5 : ℚ) * ((x : ℚ) - (s.mLastMousePosX : ℚ))
    let dy := (1 / 5 : ℚ) * ((y : ℚ) - (s.mLastMousePosY : ℚ))
    let radius := mathHelperClamp (s.mRadius + dx - dy) 5 150
    { s with mRadius := radius, mLastMousePosX := x, mLastMousePosY := y }
  else
    { s with mLastMousePosX := x, mLastMousePosY := y }

/-! ### The recorded per-frame command sequence (`StencilApp::Draw`) -/

/-- The pipeline-state objects the draw path binds (keys of `mPSOs`). -/
inductive PsoId where
  | psoOpaque
  | psoMarkStencilMirrors
  | psoDrawStencilReflections
  | psoTransparent
deriving DecidableEq, Repr

/-- The draw-relevant commands `StencilApp::Draw` records, in order:
pipeline-state bindings, stencil-reference changes, the per-pass constant
buffer binding at root parameter 2 (`slot` 0 = main pass, 1 = reflected
pass), and the per-layer `DrawRenderItems` calls. -/
inductive GpuCmd where
  | setPipelineState (pso : PsoId)
  | setStencilRef (ref : Nat)
  | setPassConstants (slot : Nat)
  | drawLayer (layer : RenderLayer)
deriving DecidableEq, Repr

/-- The command sequence recorded by one call of `StencilApp::Draw`
(lines 292-423): the reset binds the opaque pipeline state, the opaque
layer is drawn with main pass constants, then the six mirror faces are
processed in the order Front, Back, Left, Right, Top, Bottom, and finally
main constants are restored and the transparent layer drawn (the shadow
draw is commented out in the source). -/
def drawCommands : List GpuCmd :=
  [.setPipelineState .psoOpaque,
   .setPassConstants 0, .drawLayer .Opaque,
   -- Front
   .setStencilRef 1, .setPipelineState .psoMarkStencilMirrors, .drawLayer .MirrorsFront,
   .setPassConstants 1, .setPipelineState .psoDrawStencilReflections, .drawLayer .ReflectedFront,
   .setStencilRef 0, .setPipelineState .psoMarkStencilMirrors, .drawLayer .MirrorsFront,
   -- Back
   .setStencilRef 1, .setPipelineState .psoMarkStencilMirrors, .drawLayer .MirrorsBack,
   .setPassConstants 1, .setPipelineState .psoDrawStencilReflections, .drawLayer .ReflectedBack,
   .setStencilRef 0, .setPipelineState .psoMarkStencilMirrors, .drawLayer .MirrorsBack,
   -- Left
   .setStencilRef 1, .setPipelineState .psoMarkStencilMirrors, .drawLayer .MirrorsLeft,
   .setPassConstants 1, .setPipelineState .psoDrawStencilReflections, .drawLayer .ReflectedLeft,
   .setStencilRef 0, .setPipelineState .psoMarkStencilMirrors, .drawLayer .MirrorsLeft,
   -- Right
   .setStencilRef 1, .setPipelineState .psoMarkStencilMirrors, .drawLayer .MirrorsRight,
   .setPassConstants 1, .setPipelineState .psoDrawStencilReflections, .drawLayer .ReflectedRight,
   .setStencilRef 0, .setPipelineState .psoMarkStencilMirrors, .drawLayer .MirrorsRight,
   -- Top
   .setStencilRef 1, .setPipelineState .psoMarkStencilMirrors, .drawLayer .MirrorsTop,
   .setPassConstants 1, .setPipelineState .psoDrawStencilReflections, .drawLayer .ReflectedTop,
   .setStencilRef 0, .setPipelineState .psoMarkStencilMirrors, .drawLayer .MirrorsTop,
   -- Bottom (the source has no clearing re-mark for this face)
   .setStencilRef 1, .setPipelineState .psoMarkStencilMirrors, .drawLayer .MirrorsBottom,
   .setPassConstants 1, .setPipelineState .psoDrawStencilReflections, .drawLayer .ReflectedBottom,
   -- Restore main pass constants and stencil ref
   .setPassConstants 0, .setStencilRef 0,
   .setPipelineState .psoTransparent, .drawLayer .Transparent]

/-- The mirror-surface layer of a face. -/
def faceMirrorLayer (side : ReflectionSide) : RenderLayer :=
  match side with
  | .Front => .MirrorsFront
  | .Back => .MirrorsBack
  | .Left => .MirrorsLeft
  | .Right => .MirrorsRight
  | .Top => .MirrorsTop
  | .Bottom => .MirrorsBottom

/-- The reflected-geometry layer of a face. -/
def faceReflectedLayer (side : ReflectionSide) : RenderLayer :=
  match side with
  | .Front => .ReflectedFront
  | .Back => .ReflectedBack
  | .Left => .ReflectedLeft
  | .Right => .ReflectedRight
  | .Top => .ReflectedTop
  | .Bottom => .ReflectedBottom

/-- The claim's full three-step face sequence: mark with stencil ref 1,
draw the reflection with reflected pass constants, re-mark with ref 0. -/
def markReflectClearBlock (side : ReflectionSide) : List GpuCmd :=
  [.setStencilRef 1, .setPipelineState .psoMarkStencilMirrors, .drawLayer (faceMirrorLayer side),
   .setPassConstants 1, .setPipelineState .psoDrawStencilReflections,
   .drawLayer (faceReflectedLayer side),
   .setStencilRef 0, .setPipelineState .psoMarkStencilMirrors, .drawLayer (faceMirrorLayer side)]

/-- A face sequence missing the third (clearing) step. -/
def markReflectBlock (side : ReflectionSide) : List GpuCmd :=
  [.setStencilRef 1, .setPipelineState .psoMarkStencilMirrors, .drawLayer (faceMirrorLayer side),
   .setPassConstants 1, .setPipelineState .psoDrawStencilReflections,
   .drawLayer (faceReflectedLayer side)]

/-! ### Frame-resource ring fence gating (`Update` lines 261-273, `Draw` lines 440-444) -/

/-- The synchronization state: the current ring index, the fence value
stored in each of the three `FrameResource`s, the CPU-side monotone counter
`mCurrentFence`, and the GPU's `mFence->GetCompletedValue()`. -/
structure FenceState where
  currFrameResourceIndex : Fin 3
  fences : Fin 3 → Nat
  currentFence : Nat
  completedValue : Nat

/-- The start-of-`Update` slot acquisition: advance the ring index, and if
the acquired slot's stored fence is nonzero and not yet completed, block on
`WaitForSingleObject` until the GPU signals it (post-wait the completed
value has reached the stored fence).  Returns the new state and whether the
CPU blocked. -/
def updateAcquire (s : FenceState) : FenceState × Bool :=
  let idx : Fin 3 := s.currFrameResourceIndex + 1
  if s.fences idx ≠ 0 ∧ s.completedValue < s.fences idx then
    ({ s with currFrameResourceIndex := idx, completedValue := s.fences idx }, true)
  else
    ({ s with currFrameResourceIndex := idx }, false)

/-- The end-of-`Draw` submission: `mCurrFrameResource->Fence = ++mCurrentFence`
followed by `mCommandQueue->Signal(mFence.Get(), mCurrentFence)`. -/
def drawSubmit (s : FenceState) : FenceState :=
  { s with
    currentFence := s.currentFence + 1,
    fences := Function.update s.fences s.currFrameResourceIndex (s.currentFence + 1) }

/-- Asynchronous GPU progress between frames: the completed value advances
by at most `n`, never past the last signaled fence `mCurrentFence`. -/
def gpuProgress (s : FenceState) (n : Nat) : FenceState :=
  { s with completedValue := min (s.completedValue + n) s.currentFence }

/-- One frame: GPU progress, then `Update`'s acquire-and-wait, then the
frame's submission. -/
def frameStep (s : FenceState) (gpuAdvance : Nat) : FenceState :=
  drawSubmit (updateAcquire (gpuProgress s gpuAdvance)).1

/-- A run of frames with the given per-frame GPU progress amounts. -/
def runFrames (s : FenceState) : List Nat → FenceState
  | [] => s
  | g :: gs => runFrames (frameStep s g) gs

/-- Startup state: ring index 0, all `FrameResource::Fence` values 0,
`mCurrentFence = 0`, nothing completed. -/
def initFenceState : FenceState :=
  ⟨0, fun _ => 0, 0, 0⟩

/-! ### Render items and the per-object constant-buffer update -/

/-- Embeds `struct RenderItem` (the GPU handles `Mat`/`Geo` become registry names;
`PrimitiveType` is always the triangle list and is omitted). -/
structure RenderItem where
  world : Float4x4 := identity4x4
  texTransform : Float4x4 := identity4x4
  numFramesDirty : Int := gNumFrameResources
  objCBIndex : Nat := 0
  matName : String := ""
  geoName : String := ""
  indexCount : Nat := 0
  startIndexLocation : Nat := 0
  baseVertexLocation : Int := 0
deriving DecidableEq, Repr

/-- Embeds `struct ObjectConstants` (FrameResource.h): the per-object record the
update writes. -/
structure ObjectConstants where
  world : Float4x4
  texTransform : Float4x4
deriving DecidableEq, Repr

/-- A frame resource's per-object upload buffer, indexed by `ObjCBIndex`. -/
def ObjectCB : Type := Nat → ObjectConstants

/-- The body of the `UpdateObjectCBs` loop for one render item: if its dirty
counter is positive, write the transposed world and texture transforms at
its `ObjCBIndex` into the given buffer and decrement the counter, else leave
item and buffer unchanged. -/
def updateObjectCBItem (e : RenderItem) (cb : ObjectCB) : RenderItem × ObjectCB :=
  if e.numFramesDirty > 0 then
    ({ e with numFramesDirty := e.numFramesDirty - 1 },
     fun i =>
       if i = e.objCBIndex then
         ⟨xmMatrixTranspose e.world, xmMatrixTranspose e.texTransform⟩
       else cb i)
  else
    (e, cb)

/-- Embeds `StencilApp::UpdateObjectCBs`: the loop over `mAllRitems` against the
current frame resource's buffer. -/
def updateObjectCBs : List RenderItem → ObjectCB → List RenderItem × ObjectCB
  | [], cb => ([], cb)
  | e :: es, cb =>
    let (e', cb') := updateObjectCBItem e cb
    let (es', cb'') := updateObjectCBs es cb'
    (e' :: es', cb'')

/-- One item's view of a frame: the ring of three per-object buffers, the
frame updating the buffer of ring slot `k`. -/
def objFrameStep (e : RenderItem) (frs : Fin 3 → ObjectCB) (k : Fin 3) :
    RenderItem × (Fin 3 → ObjectCB) :=
  ((updateObjectCBItem e (frs k)).1,
   Function.update frs k (updateObjectCBItem e (frs k)).2)

/-! ### Keyboard input (`StencilApp::OnKeyboardInput`) -/

/-- Polled `GetAsyncKeyState` results for the keys the handler reads. -/
structure KeyState where
  key1 : Bool := false
  key2 : Bool := false
  keyA : Bool := false
  keyD : Bool := false
  keyW : Bool := false
  keyS : Bool := false
  keyQ : Bool := false
  keyE : Bool := false
deriving DecidableEq, Repr

/-- Models a `std::vector` element write through `operator[]` (in-range per the
program's invariants; out of range the list is returned unchanged). -/
def updateAt {α : Type} (l : List α) (i : Nat) (f : α → α) : List α :=
  match l.get? i with
  | some a => l.set i (f a)
  | none => l

/-- The member state `OnKeyboardInput` touches. -/
structure SkullScene where
  mSelectedItemIndex : Nat
  mSkullTranslations : List Float3
  mSkulls : List RenderItem
  mReflectedSkulls : ReflectionSide → List RenderItem
  mShadowedSkullRitem : RenderItem
  lights0Direction : Float3

/-- Embeds `StencilApp::OnKeyboardInput` for one frame: `keys` is the polled
keyboard, `dt = gt.DeltaTime()`, and `rc`/`rs` abstract
`cosf(0.5f * MathHelper::Pi)` / `sinf(0.5f * MathHelper::Pi)`. -/
def onKeyboardInput (rc rs : ℚ) (keys : KeyState) (dt : ℚ) (s : SkullScene) : SkullScene :=
  let sel := if keys.key1 then 0 else s.mSelectedItemIndex
  let sel := if keys.key2 then 1 else sel
  let t := s.mSkullTranslations.getD sel ⟨0, 0, 0⟩
  let t := if keys.keyA then { t with z := t.z - 2 * dt } else t
  let t := if keys.keyD then { t with z := t.z + 2 * dt } else t
  let t := if keys.keyW then { t with y := t.y + 2 * dt } else t
  let t := if keys.keyS then { t with y := t.y - 2 * dt } else t
  let t := if keys.keyQ then { t with x := t.x + 2 * dt } else t
  let t := if keys.keyE then { t with x := t.x - 2 * dt } else t
  let translations := s.mSkullTranslations.set sel t
  -- Update the new world matrix.
  let skullRotate := xmMatrixRotationY rc rs
  let skullScale := xmMatrixScaling (45 / 100) (45 / 100) (45 / 100)
  let skullOffset := xmMatrixTranslation t.x t.y t.z
  let skullWorld := skullRotate * skullScale * skullOffset
  let skulls := updateAt s.mSkulls sel (fun it => { it with world := skullWorld })
  -- Update reflection world matrices.
  let reflected := fun j =>
    let mirrorPlane := findMirrorPlane j
    let R := xmMatrixReflect mirrorPlane
    let T := findMirrorOffset j
    let pastMirrorPlane := isPastMirrorPlane (skullWorld * R * T) j
    updateAt (s.mReflectedSkulls j) sel
      (fun it => { it with world := skullWorld * R * T * pastMirrorPlane })
  -- Update shadow world matrix.
  let shadowPlane : Float4 := ⟨0, 1, 0, 0⟩
  let toMainLight : Float4 :=
    ⟨-s.lights0Direction.x, -s.lights0Direction.y, -s.lights0Direction.z, 0⟩
  let S := xmMatrixShadow shadowPlane toMainLight
  let shadowOffsetY := xmMatrixTranslation 0 (1 / 1000) 0
  let shadowItem := { s.mShadowedSkullRitem with world := skullWorld * S * shadowOffsetY }
  -- Reset the dirty counters.
  let skulls := updateAt skulls sel (fun it => { it with numFramesDirty := gNumFrameResources })
  let reflected := fun j =>
    updateAt (reflected j) sel (fun it => { it with numFramesDirty := gNumFrameResources })
  let shadowItem := { shadowItem with numFramesDirty := gNumFrameResources }
  { s with
    mSelectedItemIndex := sel,
    mSkullTranslations := translations,
    mSkulls := skulls,
    mReflectedSkulls := reflected,
    mShadowedSkullRitem := shadowItem }

/-! ### Geometry registry and scene construction -/

/-- Embeds `SubmeshGeometry` (the draw-argument record; a value-initialized one has
all counts zero).  Modelled from the spec: the struct's definition lives in
`Common/d3dUtil.h`, which is not under `src/`; the spec's data model gives a
submesh an index-range and base-vertex, and `std::unordered_map::operator[]`
value-initializes the record on a missing key. -/
structure SubmeshGeometry where
  indexCount : Nat := 0
  startIndexLocation : Nat := 0
  baseVertexLocation : Int := 0
deriving DecidableEq, Repr, Inhabited

/-- Embeds `MeshGeometry` restricted to what the claims read: its name and its
`DrawArgs` table. -/
structure MeshGeometry where
  name : String
  drawArgs : List (String × SubmeshGeometry)
deriving DecidableEq, Repr

/-- Models `geo->DrawArgs[key]`: association lookup; a missing key yields the
value-initialized submesh (all counts zero), per
`std::unordered_map::operator[]`. -/
def MeshGeometry.lookupDrawArgs (g : MeshGeometry) (key : String) : SubmeshGeometry :=
  (((g.drawArgs.find? (fun p => p.1 = key)).map Prod.snd)).getD {}

/-- Embeds `StencilApp::BuildRoomGeometry`, which registers exactly the six mirror
submeshes (the floor and wall submeshes are commented out in the source). -/
def roomGeo : MeshGeometry :=
  { name := "roomGeo",
    drawArgs :=
      [("mirrorFront", ⟨6, 0, 0⟩),
       ("mirrorTop", ⟨6, 6, 0⟩),
       ("mirrorLeft", ⟨6, 12, 0⟩),
       ("mirrorRight", ⟨6, 18, 0⟩),
       ("mirrorBack", ⟨6, 24, 0⟩),
       ("mirrorBottom", ⟨6, 30, 0⟩)] }

/-- The header counts of `Models/skull.txt` (the vertex payload is not read
by any claim). -/
structure SkullData where
  vcount : Nat
  tcount : Nat
deriving DecidableEq, Repr

/-- The mesh `BuildSkullGeometry` registers from a successfully read file:
one submesh `"skull"` covering all `3 * tcount` indices. -/
def skullGeoOf (d : SkullData) : MeshGeometry :=
  { name := "skullGeo", drawArgs := [("skull", ⟨3 * d.tcount, 0, 0⟩)] }

/-- Embeds `StencilApp::BuildSkullGeometry`: with no file it shows the
`"Models/skull.txt not found."` message box and returns without registering
anything; otherwise it registers `skullGeoOf`.  The `Bool` records whether
the notification was shown. -/
def buildSkullGeometry (file : Option SkullData) : Option MeshGeometry × Bool :=
  match file with
  | none => (none, true)
  | some d => (some (skullGeoOf d), false)

/-- The geometry registry `mGeometries` after `BuildRoomGeometry` and
`BuildSkullGeometry`; `none` is the null `unique_ptr` that
`mGeometries["skullGeo"]` holds when the skull file was missing. -/
def mGeometries (file : Option SkullData) : String → Option MeshGeometry :=
  fun name =>
    if name = "roomGeo" then some roomGeo
    else if name = "skullGeo" then (buildSkullGeometry file).1
    else none

/-- Embeds `StencilApp::LoadReflectedItems`: six copies of `item` (Front, Back,
Left, Right, Top, Bottom), each with the next `ObjCBIndex` from the shared
counter.  Returns the copies in creation order and the advanced counter. -/
def loadReflectedItems (item : RenderItem) (renderItemCount : Nat) :
    List RenderItem × Nat :=
  ([{ item with objCBIndex := renderItemCount },
    { item with objCBIndex := renderItemCount + 1 },
    { item with objCBIndex := renderItemCount + 2 },
    { item with objCBIndex := renderItemCount + 3 },
    { item with objCBIndex := renderItemCount + 4 },
    { item with objCBIndex := renderItemCount + 5 }],
   renderItemCount + 6)

/-- Embeds `StencilApp::BuildRenderItems`.  Returns `(mAllRitems, opaque layer)` in
their C++ push order, threading the `objCBIndex` counter exactly as the
source's `objCBIndex++` does.  Each `geos name` dereference models
`mGeometries[name].get()->...`; a `none` there is the null-pointer
dereference the program would crash on. -/
def buildRenderItems (geos : String → Option MeshGeometry) :
    Option (List RenderItem × List RenderItem) := do
  let c := 0
  let floorGeo ← geos "roomGeo"
  let floorRitem : RenderItem :=
    { objCBIndex := c, matName := "checkertile", geoName := floorGeo.name,
      indexCount := (floorGeo.lookupDrawArgs "floor").indexCount,
      startIndexLocation := (floorGeo.lookupDrawArgs "floor").startIndexLocation,
      baseVertexLocation := (floorGeo.lookupDrawArgs "floor").baseVertexLocation }
  let c := c + 1
  let wallGeo ← geos "roomGeo"
  let wallsRitem : RenderItem :=
    { objCBIndex := c, matName := "bricks", geoName := wallGeo.name,
      indexCount := (wallGeo.lookupDrawArgs "wall").indexCount,
      startIndexLocation := (wallGeo.lookupDrawArgs "wall").startIndexLocation,
      baseVertexLocation := (wallGeo.lookupDrawArgs "wall").baseVertexLocation }
  let c := c + 1
  let skullGeo ← geos "skullGeo"
  let skullRitem : RenderItem :=
    { objCBIndex := c, matName := "skullMat", geoName := skullGeo.name,
      indexCount := (skullGeo.lookupDrawArgs "skull").indexCount,
      startIndexLocation := (skullGeo.lookupDrawArgs "skull").startIndexLocation,
      baseVertexLocation := (skullGeo.lookupDrawArgs "skull").baseVertexLocation }
  let c := c + 1
  let (reflected1, c) := loadReflectedItems skullRitem c
  let skullGeo2 ← geos "skullGeo"
  let skullRitem2 : RenderItem :=
    { world := xmMatrixScaling (45 / 100) (45 / 100) (45 / 100) * xmMatrixTranslation 0 0 10,
      objCBIndex := c, matName := "skullMat", geoName := skullGeo2.name,
      indexCount := (skullGeo2.lookupDrawArgs "skull").indexCount,
      startIndexLocation := (skullGeo2.lookupDrawArgs "skull").startIndexLocation,
      baseVertexLocation := (skullGeo2.lookupDrawArgs "skull").baseVertexLocation }
  let c := c + 1
  let (reflected2, c) := loadReflectedItems skullRitem2 c
  let shadowedSkullRitem : RenderItem :=
    { skullRitem with objCBIndex := c, matName := "shadowMat" }
  let c := c + 1
  let mirrorGeo ← geos "roomGeo"
  let mkMirror := fun (idx : Nat) (key : String) =>
    ({ objCBIndex := idx, matName := "icemirror", geoName := mirrorGeo.name,
       indexCount := (mirrorGeo.lookupDrawArgs key).indexCount,
       startIndexLocation := (mirrorGeo.lookupDrawArgs key).startIndexLocation,
       baseVertexLocation := (mirrorGeo.lookupDrawArgs key).baseVertexLocation } : RenderItem)
  let mirrorFrontRItem := mkMirror c "mirrorFront"
  let c := c + 1
  let mirrorTopRItem := mkMirror c "mirrorTop"
  let c := c + 1
  let mirrorLeftRItem := mkMirror c "mirrorLeft"
  let c := c + 1
  let mirrorRightRItem := mkMirror c "mirrorRight"
  let c := c + 1
  let mirrorBackRItem := mkMirror c "mirrorBack"
  let c := c + 1
  let mirrorBottomRItem := mkMirror c "mirrorBottom"
  let allRitems :=
    reflected1 ++ reflected2 ++
    [floorRitem, wallsRitem, skullRitem, skullRitem2, shadowedSkullRitem,
     mirrorFrontRItem, mirrorTopRItem, mirrorLeftRItem, mirrorRightRItem,
     mirrorBackRItem, mirrorBottomRItem]
  let opaqueLayer := [floorRitem, wallsRitem, skullRitem, skullRitem2]
  pure (allRitems, opaqueLayer)

/-- One recorded `DrawIndexedInstanced` call of `DrawRenderItems`. -/
structure DrawIndexedCall where
  indexCountPerInstance : Nat
  instanceCount : Nat
  startIndexLocation : Nat
  baseVertexLocation : Int
deriving DecidableEq, Repr

/-- Embeds `StencilApp::DrawRenderItems`: per item one indexed draw with the item's
index count, start index and base vertex. -/
def drawRenderItemsCalls (ritems : List RenderItem) : List DrawIndexedCall :=
  ritems.map fun ri => ⟨ri.indexCount, 1, ri.startIndexLocation, ri.baseVertexLocation⟩

/-! ### Claim-side definitions -/

/-- The claim's "single relevant translation coordinate" of a face. -/
def relevantCoord (w : Float4x4) (side : ReflectionSide) : ℚ :=
  match side with
  | .Top => w.m42
  | .Bottom => w.m42
  | .Left => w.m41
  | .Right => w.m41
  | .Front => w.m43
  | .Back => w.m43

/-- The claim's "literal threshold constant" of a face. -/
def faceThreshold (side : ReflectionSide) : ℚ :=
  match side with
  | .Top => 4
  | .Bottom => -4
  | .Left => -4
  | .Right => 4
  | .Front => 0
  | .Back => 8

/-- The claim's "strictly past the boundary", in the outward direction of
each face. -/
def strictlyPastBoundary (w : Float4x4) (side : ReflectionSide) : Prop :=
  match side with
  | .Top => faceThreshold .Top < relevantCoord w .Top
  | .Bottom => relevantCoord w .Bottom < faceThreshold .Bottom
  | .Left => relevantCoord w .Left < faceThreshold .Left
  | .Right => faceThreshold .Right < relevantCoord w .Right
  | .Front => relevantCoord w .Front < faceThreshold .Front
  | .Back => faceThreshold .Back < relevantCoord w .Back

/-- The two `mSkullTranslations` entries pushed by `BuildRenderItems`. -/
def initialSkullTranslations : List Float3 :=
  [⟨0, 0, -4⟩, ⟨0, 0, 12⟩]

/-! ### Helper lemmas -/

theorem fin3_add_one_ne : ∀ k : Fin 3, k + 1 ≠ k := by decide

theorem fin3_add_two_ne : ∀ k : Fin 3, k + 2 ≠ k := by decide

theorem fin3_add_two_ne_add_one : ∀ k : Fin 3, k + 2 ≠ k + 1 := by decide

theorem fin3_cover : ∀ k i : Fin 3, i = k ∨ i = k + 1 ∨ i = k + 2 := by decide

theorem mathHelperClamp_mem (x low high : ℚ) (h : low ≤ high) :
    low ≤ mathHelperClamp x low high ∧ mathHelperClamp x low high ≤ high := by
  unfold mathHelperClamp
  split_ifs <;> constructor <;> linarith

theorem updateAcquire_idx (s : FenceState) :
    (updateAcquire s).1.currFrameResourceIndex = s.currFrameResourceIndex + 1 := by
  unfold updateAcquire
  dsimp only
  split <;> rfl

theorem frameStep_idx (s : FenceState) (g : Nat) :
    (frameStep s g).currFrameResourceIndex = s.currFrameResourceIndex + 1 := by
  unfold frameStep drawSubmit
  simpa using updateAcquire_idx (gpuProgress s g)

theorem runFrames_idx (gs : List Nat) (s : FenceState) :
    (runFrames s gs).currFrameResourceIndex =
      s.currFrameResourceIndex + (gs.length : Fin 3) := by
  induction gs generalizing s with
  | nil => simp [runFrames]
  | cons g gs ih =>
    rw [runFrames, ih, frameStep_idx]
    have : ((gs.length + 1 : Nat) : Fin 3) = (gs.length : Fin 3) + 1 := by
      push_cast
      ring
    simp only [List.length_cons, this]
    ring

/-! ### Claim theorems -/

/-- C1 (counterexample): the claim's "exactly three steps per face for all
6 faces" fails on the recorded command sequence: the Bottom face's mirror
layer is drawn only once (mark) instead of twice (mark and clear-mark),
and only 11 mark-mirror pipeline-state bindings are recorded instead of
the 12 the claim requires. -/
theorem c1_counterexample :
    drawCommands.count (GpuCmd.drawLayer (faceMirrorLayer .Bottom)) = 1 ∧
    drawCommands.count (GpuCmd.drawLayer (faceMirrorLayer .Front)) = 2 ∧
    drawCommands.count (GpuCmd.setPipelineState .psoMarkStencilMirrors) = 11 := by
  decide

/-- C1 (amended): in every frame's recorded command sequence the faces are
processed one at a time in the order Front, Back, Left, Right, Top, Bottom;
each of the first five faces executes the full mark / reflect / clear-mark
three-step sequence before the next face begins, while the sixth face
(Bottom) executes only mark and reflect, after which the orchestrator
restores main pass constants and stencil reference 0 without re-drawing the
Bottom mirror layer. -/
theorem c1_stencil_pass_ordering :
    drawCommands =
      [.setPipelineState .psoOpaque, .setPassConstants 0, .drawLayer .Opaque] ++
      markReflectClearBlock .Front ++ markReflectClearBlock .Back ++
      markReflectClearBlock .Left ++ markReflectClearBlock .Right ++
      markReflectClearBlock .Top ++ markReflectBlock .Bottom ++
      [.setPassConstants 0, .setStencilRef 0,
       .setPipelineState .psoTransparent, .drawLayer .Transparent] := by
  rfl

/-- C2: the frame-resource ring's fence gating.  (1) After the acquire-and-
wait phase at the start of `Update` — which runs before any write to the
slot — the acquired slot's stored fence value never exceeds the GPU's
completed-fence counter, so a slot is never reused while its stored fence
is ahead of the GPU.  (2) The CPU blocks exactly when the acquired slot's
stored fence is nonzero and not yet completed.  (3) After submission the
orchestrator increments the monotone fence counter, stores it in the slot,
and signals the queue with it.  (4) Starting from the initial state, frame
`n` acquires ring slot `n mod 3`. -/
theorem c2_fence_wait_gating :
    (∀ s : FenceState,
      (updateAcquire s).1.fences (updateAcquire s).1.currFrameResourceIndex ≤
        (updateAcquire s).1.completedValue) ∧
    (∀ s : FenceState,
      ((updateAcquire s).2 = true ↔
        (s.fences (s.currFrameResourceIndex + 1) ≠ 0 ∧
          s.completedValue < s.fences (s.currFrameResourceIndex + 1)))) ∧
    (∀ s : FenceState,
      (drawSubmit s).currentFence = s.currentFence + 1 ∧
      (drawSubmit s).fences s.currFrameResourceIndex = s.currentFence + 1) ∧
    (∀ gs : List Nat,
      (runFrames initFenceState gs).currFrameResourceIndex = (gs.length : Fin 3)) := by
  refine ⟨fun s => ?_, fun s => ?_, fun s => ?_, fun gs => ?_⟩
  · unfold updateAcquire
    dsimp only
    split
    · simp
    · next h =>
        rw [not_and_or, not_not, not_lt] at h
        rcases h with h | h
        · simp [h]
        · simpa using h
  · unfold updateAcquire
    dsimp only
    split
    · next h => simpa using h
    · next h => simpa using h
  · constructor
    · rfl
    · simp [drawSubmit]
  · rw [runFrames_idx]
    simp [initFenceState]

/-- C4: for every composed world matrix and every face the visibility clamp
compares the single relevant translation coordinate strictly against the
face's literal threshold: at exact equality with the boundary the clamp
returns the unit-scale (identity) matrix, and strictly past the boundary it
returns the zero-scale matrix. -/
theorem c4_visibility_clamp_strict (w : Float4x4) (side : ReflectionSide) :
    (relevantCoord w side = faceThreshold side →
      isPastMirrorPlane w side = xmMatrixScaling 1 1 1) ∧
    (strictlyPastBoundary w side →
      isPastMirrorPlane w side = xmMatrixScaling 0 0 0) := by
  cases side <;>
    refine ⟨fun h => ?_, fun h => ?_⟩ <;>
    simp_all [isPastMirrorPlane, relevantCoord, faceThreshold, strictlyPastBoundary]

/-- C4 (witness): a reflected world matrix whose y-translation is exactly 4
is not collapsed by the Top face's clamp, and one at 5 is collapsed. -/
theorem c4_witness :
    isPastMirrorPlane (xmMatrixTranslation 0 4 0) .Top = xmMatrixScaling 1 1 1 ∧
    isPastMirrorPlane (xmMatrixTranslation 0 5 0) .Top = xmMatrixScaling 0 0 0 :=
  ⟨(c4_visibility_clamp_strict (xmMatrixTranslation 0 4 0) .Top).1 rfl,
   (c4_visibility_clamp_strict (xmMatrixTranslation 0 5 0) .Top).2 (by norm_num [strictlyPastBoundary, relevantCoord, faceThreshold, xmMatrixTranslation])⟩

/-- C9: for every plane in the mirror table (all unit normals through the
origin), the reflection matrix is involutive: composed with itself it is
the identity matrix, and transforming any point twice returns the point. -/
theorem c9_reflection_involutive (side : ReflectionSide) (v : Float4) :
    xmMatrixReflect (findMirrorPlane side) * xmMatrixReflect (findMirrorPlane side) =
      identity4x4 ∧
    vec4Transform (vec4Transform v (xmMatrixReflect (findMirrorPlane side)))
      (xmMatrixReflect (findMirrorPlane side)) = v := by
  obtain ⟨vx, vy, vz, vw⟩ := v
  cases side <;>
    refine ⟨?_, ?_⟩ <;>
    simp [Float4x4.mul_def, matMul, xmMatrixReflect, findMirrorPlane, identity4x4,
      vec4Transform, Float4x4.mk.injEq, Float4.mk.injEq] <;>
    norm_num

/-- C8 (counterexample): a left-drag far enough downward leaves the polar
angle exactly at the clamp's lower bound 0.1, which is not strictly inside
the open interval (0.1, π − 0.1) the claim states. -/
theorem c8_counterexample :
    ¬ (1 / 10 < (onMouseMove ⟨true, false⟩ 0 (-10000) ⟨0, 1, 12, 0, 0⟩).mPhi) := by
  norm_num [onMouseMove, xmConvertToRadians, xmPi, mathHelperClamp, mathHelperPi]

/-- C8 (amended): after each left-drag the polar angle lies in the CLOSED
interval [0.1, π − 0.1] (the clamp's endpoints are attainable), and after
each right-drag (right button held, left not) the radius lies in the closed
interval [5, 150]. -/
theorem c8_mouse_clamp_closed (btnState : MouseButtons) (x y : ℤ) (s : CameraState) :
    (btnState.lbutton = true →
      1 / 10 ≤ (onMouseMove btnState x y s).mPhi ∧
      (onMouseMove btnState x y s).mPhi ≤ mathHelperPi - 1 / 10) ∧
    (btnState.lbutton = false → btnState.rbutton = true →
      5 ≤ (onMouseMove btnState x y s).mRadius ∧
      (onMouseMove btnState x y s).mRadius ≤ 150) := by
  constructor
  · intro hl
    simp only [onMouseMove, hl, if_true]
    exact mathHelperClamp_mem _ _ _ (by norm_num [mathHelperPi])
  · intro hl hr
    simp only [onMouseMove, hl, hr, if_true, Bool.false_eq_true, if_false]
    exact mathHelperClamp_mem _ _ _ (by norm_num)

/-- C8 (witness): the clamp bounds hold after a concrete left-drag and a
concrete right-drag. -/
theorem c8_witness :
    (1 / 10 ≤ (onMouseMove ⟨true, false⟩ 3 7 ⟨0, 1, 12, 0, 0⟩).mPhi ∧
      (onMouseMove ⟨true, false⟩ 3 7 ⟨0, 1, 12, 0, 0⟩).mPhi ≤ mathHelperPi - 1 / 10) ∧
    (5 ≤ (onMouseMove ⟨false, true⟩ 3 7 ⟨0, 1, 12, 0, 0⟩).mRadius ∧
      (onMouseMove ⟨false, true⟩ 3 7 ⟨0, 1, 12, 0, 0⟩).mRadius ≤ 150) :=
  ⟨(c8_mouse_clamp_closed ⟨true, false⟩ 3 7 ⟨0, 1, 12, 0, 0⟩).1 rfl,
   (c8_mouse_clamp_closed ⟨false, true⟩ 3 7 ⟨0, 1, 12, 0, 0⟩).2 rfl rfl⟩

theorem list_get?_set_self {α : Type} (l : List α) (i : Nat) (a : α) (h : i < l.length) :
    (l.set i a).get? i = some a := by
  induction l generalizing i with
  | nil => simp at h
  | cons b bs ih =>
    cases i with
    | zero => rfl
    | succ n =>
      simp only [List.set, List.get?]
      exact ih n (by simpa using h)

theorem updateAt_get?_eq {α : Type} (l : List α) (i : Nat) (f : α → α) (a : α)
    (h : l.get? i = some a) : (updateAt l i f).get? i = some (f a) := by
  unfold updateAt
  rw [h]
  obtain ⟨hl, -⟩ := List.get?_eq_some.mp h
  exact list_get?_set_self _ _ _ hl

theorem list_getD_of_get? {α : Type} (l : List α) (i : Nat) (d a : α)
    (h : l.get? i = some a) : l.getD i d = a := by
  simp [List.getD_eq_getElem?_getD, ← List.get?_eq_getElem?, h]

/-- C3: the dirty-counter protocol of `UpdateObjectCBs`.  (1) An item with
counter 0 is skipped (item and buffer unchanged).  (2) An item with a
positive counter has the transposed world and texture transforms written at
its `ObjCBIndex` and its counter decremented by exactly 1.  (3) A
nonnegative counter stays nonnegative.  (4) A transform change resets the
counter to the ring depth (shown at the shadow item, the transform-change
site in `OnKeyboardInput`; the skull and reflected items are covered by the
C6 theorem).  (5) From counter 3, after exactly 3 consecutive per-frame
updates hitting the ring slots `k`, `k+1`, `k+2`, all three ring buffers
hold the new transposed transform at the item's slot and the counter is
exactly 0. -/
theorem c3_dirty_counter_protocol :
    (∀ (e : RenderItem) (cb : ObjectCB), e.numFramesDirty = 0 →
      updateObjectCBItem e cb = (e, cb)) ∧
    (∀ (e : RenderItem) (cb : ObjectCB), 0 < e.numFramesDirty →
      (updateObjectCBItem e cb).1.numFramesDirty = e.numFramesDirty - 1 ∧
      (updateObjectCBItem e cb).2 e.objCBIndex =
        ⟨xmMatrixTranspose e.world, xmMatrixTranspose e.texTransform⟩) ∧
    (∀ (e : RenderItem) (cb : ObjectCB), 0 ≤ e.numFramesDirty →
      0 ≤ (updateObjectCBItem e cb).1.numFramesDirty) ∧
    (∀ (rc rs dt : ℚ) (keys : KeyState) (s : SkullScene),
      (onKeyboardInput rc rs keys dt s).mShadowedSkullRitem.numFramesDirty = 3) ∧
    (∀ (e : RenderItem) (frs : Fin 3 → ObjectCB) (k : Fin 3),
      e.numFramesDirty = 3 →
      (objFrameStep (objFrameStep (objFrameStep e frs k).1
          (objFrameStep e frs k).2 (k + 1)).1
          (objFrameStep (objFrameStep e frs k).1
            (objFrameStep e frs k).2 (k + 1)).2 (k + 2)).1.numFramesDirty = 0 ∧
      (∀ i : Fin 3,
        (objFrameStep (objFrameStep (objFrameStep e frs k).1
            (objFrameStep e frs k).2 (k + 1)).1
            (objFrameStep (objFrameStep e frs k).1
              (objFrameStep e frs k).2 (k + 1)).2 (k + 2)).2 i e.objCBIndex =
          ⟨xmMatrixTranspose e.world, xmMatrixTranspose e.texTransform⟩)) := by
  refine ⟨fun e cb h0 => ?_, fun e cb hpos => ?_, fun e cb hn => ?_,
    fun rc rs dt keys s => rfl, fun e frs k h3 => ?_⟩
  · simp [updateObjectCBItem, h0]
  · constructor <;> simp [updateObjectCBItem, hpos]
  · unfold updateObjectCBItem
    split <;> simp <;> omega
  · refine ⟨?_, fun i => ?_⟩
    · simp [objFrameStep, updateObjectCBItem, h3]
    · rcases fin3_cover k i with rfl | rfl | rfl
      · simp [objFrameStep, updateObjectCBItem, h3, Function.update_apply,
          fin3_add_two_ne i, fin3_add_one_ne i]
      · simp [objFrameStep, updateObjectCBItem, h3, Function.update_apply,
          fin3_add_two_ne_add_one k]
      · simp [objFrameStep, updateObjectCBItem, h3, Function.update_apply]

/-- C3 (witness): the dirty-counter protocol at concrete inputs — a clean
item is skipped, a default (dirty = 3) item is written and decremented, and
after three frames over ring slots 0, 1, 2 all three buffers hold the
transposed transform with the counter at 0. -/
theorem c3_witness :
    updateObjectCBItem ({ numFramesDirty := 0 } : RenderItem)
        (fun _ => ⟨identity4x4, identity4x4⟩) =
      (({ numFramesDirty := 0 } : RenderItem), fun _ => ⟨identity4x4, identity4x4⟩) ∧
    ((updateObjectCBItem ({} : RenderItem)
        (fun _ => ⟨identity4x4, identity4x4⟩)).1.numFramesDirty =
      ({} : RenderItem).numFramesDirty - 1 ∧
     (updateObjectCBItem ({} : RenderItem)
        (fun _ => ⟨identity4x4, identity4x4⟩)).2 ({} : RenderItem).objCBIndex =
      ⟨xmMatrixTranspose ({} : RenderItem).world,
       xmMatrixTranspose ({} : RenderItem).texTransform⟩) ∧
    (0 ≤ (updateObjectCBItem ({} : RenderItem)
        (fun _ => ⟨identity4x4, identity4x4⟩)).1.numFramesDirty) ∧
    (objFrameStep (objFrameStep (objFrameStep ({} : RenderItem)
        (fun _ _ => ⟨identity4x4, identity4x4⟩) 0).1
        (objFrameStep ({} : RenderItem) (fun _ _ => ⟨identity4x4, identity4x4⟩) 0).2
        (0 + 1)).1
        (objFrameStep (objFrameStep ({} : RenderItem)
          (fun _ _ => ⟨identity4x4, identity4x4⟩) 0).1
          (objFrameStep ({} : RenderItem) (fun _ _ => ⟨identity4x4, identity4x4⟩) 0).2
          (0 + 1)).2 (0 + 2)).1.numFramesDirty = 0 ∧
    (objFrameStep (objFrameStep (objFrameStep ({} : RenderItem)
        (fun _ _ => ⟨identity4x4, identity4x4⟩) 0).1
        (objFrameStep ({} : RenderItem) (fun _ _ => ⟨identity4x4, identity4x4⟩) 0).2
        (0 + 1)).1
        (objFrameStep (objFrameStep ({} : RenderItem)
          (fun _ _ => ⟨identity4x4, identity4x4⟩) 0).1
          (objFrameStep ({} : RenderItem) (fun _ _ => ⟨identity4x4, identity4x4⟩) 0).2
          (0 + 1)).2 (0 + 2)).2 0 ({} : RenderItem).objCBIndex =
      ⟨xmMatrixTranspose ({} : RenderItem).world,
       xmMatrixTranspose ({} : RenderItem).texTransform⟩ ∧
    (objFrameStep (objFrameStep (objFrameStep ({} : RenderItem)
        (fun _ _ => ⟨identity4x4, identity4x4⟩) 0).1
        (objFrameStep ({} : RenderItem) (fun _ _ => ⟨identity4x4, identity4x4⟩) 0).2
        (0 + 1)).1
        (objFrameStep (objFrameStep ({} : RenderItem)
          (fun _ _ => ⟨identity4x4, identity4x4⟩) 0).1
          (objFrameStep ({} : RenderItem) (fun _ _ => ⟨identity4x4, identity4x4⟩) 0).2
          (0 + 1)).2 (0 + 2)).2 1 ({} : RenderItem).objCBIndex =
      ⟨xmMatrixTranspose ({} : RenderItem).world,
       xmMatrixTranspose ({} : RenderItem).texTransform⟩ ∧
    (objFrameStep (objFrameStep (objFrameStep ({} : RenderItem)
        (fun _ _ => ⟨identity4x4, identity4x4⟩) 0).1
        (objFrameStep ({} : RenderItem) (fun _ _ => ⟨identity4x4, identity4x4⟩) 0).2
        (0 + 1)).1
        (objFrameStep (objFrameStep ({} : RenderItem)
          (fun _ _ => ⟨identity4x4, identity4x4⟩) 0).1
          (objFrameStep ({} : RenderItem) (fun _ _ => ⟨identity4x4, identity4x4⟩) 0).2
          (0 + 1)).2 (0 + 2)).2 2 ({} : RenderItem).objCBIndex =
      ⟨xmMatrixTranspose ({} : RenderItem).world,
       xmMatrixTranspose ({} : RenderItem).texTransform⟩ :=
  ⟨c3_dirty_counter_protocol.1 _ _ rfl,
   c3_dirty_counter_protocol.2.1 _ _ (by decide),
   c3_dirty_counter_protocol.2.2.1 _ _ (by decide),
   (c3_dirty_counter_protocol.2.2.2.2 _ _ 0 rfl).1,
   (c3_dirty_counter_protocol.2.2.2.2 _ _ 0 rfl).2 0,
   (c3_dirty_counter_protocol.2.2.2.2 _ _ 0 rfl).2 1,
   (c3_dirty_counter_protocol.2.2.2.2 _ _ 0 rfl).2 2⟩

theorem list_getElem?_set_self {α : Type} (l : List α) (i : Nat) (a : α) (h : i < l.length) :
    (l.set i a)[i]? = some a := by
  simp [List.getElem?_set_self', List.getElem?_eq_getElem h]

theorem updateAt_getElem?_eq {α : Type} (l : List α) (i : Nat) (f : α → α) (a : α)
    (h : l[i]? = some a) : (updateAt l i f)[i]? = some (f a) := by
  have h' : l.get? i = some a := by rw [List.get?_eq_getElem?]; exact h
  obtain ⟨hl, -⟩ := List.getElem?_eq_some.mp h
  unfold updateAt
  rw [h']
  exact list_getElem?_set_self _ _ _ hl

/-- C6: with the selected skull (index 0) at translation (0, 0, −4), one
frame of keyboard input with only "A" held for elapsed time `dt` moves the
stored translation to (0, 0, −4 − 2·dt); the recomputed world transform's
translation.z is exactly −4 − 2·dt (a change of exactly −2·dt); every
reflected copy's world transform is recomputed in the same frame as
`skullWorld · R · offset · clamp` for its face; and the skull's, each
reflected copy's, and the shadow item's dirty counters are all reset to the
ring depth 3. -/
theorem c6_key_a_updates_skull_and_reflections (rc rs dt : ℚ) (s : SkullScene)
    (j : ReflectionSide)
    (hsel : s.mSelectedItemIndex = 0)
    (ht : s.mSkullTranslations.get? 0 = some ⟨0, 0, -4⟩)
    (hsk : ∃ it, s.mSkulls.get? 0 = some it)
    (hrefl : ∃ it, (s.mReflectedSkulls j).get? 0 = some it) :
    (onKeyboardInput rc rs { keyA := true } dt s).mSkullTranslations.get? 0 =
      some ⟨0, 0, -4 - 2 * dt⟩ ∧
    (xmMatrixRotationY rc rs * xmMatrixScaling (45 / 100) (45 / 100) (45 / 100) *
      xmMatrixTranslation 0 0 (-4 - 2 * dt)).m43 = -4 - 2 * dt ∧
    (∃ it, (onKeyboardInput rc rs { keyA := true } dt s).mSkulls.get? 0 = some it ∧
      it.world = xmMatrixRotationY rc rs * xmMatrixScaling (45 / 100) (45 / 100) (45 / 100) *
        xmMatrixTranslation 0 0 (-4 - 2 * dt) ∧
      it.numFramesDirty = 3) ∧
    (∃ it, ((onKeyboardInput rc rs { keyA := true } dt s).mReflectedSkulls j).get? 0 =
        some it ∧
      it.world = xmMatrixRotationY rc rs * xmMatrixScaling (45 / 100) (45 / 100) (45 / 100) *
        xmMatrixTranslation 0 0 (-4 - 2 * dt) * xmMatrixReflect (findMirrorPlane j) *
        findMirrorOffset j *
        isPastMirrorPlane
          (xmMatrixRotationY rc rs * xmMatrixScaling (45 / 100) (45 / 100) (45 / 100) *
            xmMatrixTranslation 0 0 (-4 - 2 * dt) * xmMatrixReflect (findMirrorPlane j) *
            findMirrorOffset j) j ∧
      it.numFramesDirty = 3) ∧
    (onKeyboardInput rc rs { keyA := true } dt s).mShadowedSkullRitem.numFramesDirty = 3 := by
  obtain ⟨sk, hsk⟩ := hsk
  obtain ⟨rf, hrefl⟩ := hrefl
  rw [List.get?_eq_getElem?] at ht hsk hrefl
  obtain ⟨hlt, -⟩ := List.getElem?_eq_some.mp ht
  simp only [List.get?_eq_getElem?]
  simp [onKeyboardInput, hsel, ht]
  refine ⟨list_getElem?_set_self _ _ _ hlt, ?_, ?_, ?_, ?_⟩
  · simp [Float4x4.mul_def, matMul, xmMatrixRotationY, xmMatrixScaling, xmMatrixTranslation]
  · exact ⟨_, updateAt_getElem?_eq _ _ _ _ (updateAt_getElem?_eq _ _ _ _ hsk), rfl, rfl⟩
  · exact ⟨_, updateAt_getElem?_eq _ _ _ _ (updateAt_getElem?_eq _ _ _ _ hrefl), rfl, rfl⟩
  · rfl

/-- C6 (witness): in a concrete scene with the selected skull at
(0, 0, −4), holding "A" for dt = 1/2 moves the stored translation and the
world transform's translation.z to −5 and resets the dirty counters of the
skull, the Front reflected copy, and the shadow item to 3. -/
theorem c6_witness :
    (onKeyboardInput 0 1 { keyA := true } (1 / 2)
      ⟨0, initialSkullTranslations, [{}], fun _ => [{}], {},
        ⟨0.57735, -0.57735, 0.57735⟩⟩).mSkullTranslations.get? 0 = some ⟨0, 0, -5⟩ ∧
    ((onKeyboardInput 0 1 { keyA := true } (1 / 2)
      ⟨0, initialSkullTranslations, [{}], fun _ => [{}], {},
        ⟨0.57735, -0.57735, 0.57735⟩⟩).mSkulls.get? 0).map
      (fun it => (it.world.m43, it.numFramesDirty)) = some (-5, 3) ∧
    (((onKeyboardInput 0 1 { keyA := true } (1 / 2)
      ⟨0, initialSkullTranslations, [{}], fun _ => [{}], {},
        ⟨0.57735, -0.57735, 0.57735⟩⟩).mReflectedSkulls .Front).get? 0).map
      (fun it => it.numFramesDirty) = some 3 ∧
    (onKeyboardInput 0 1 { keyA := true } (1 / 2)
      ⟨0, initialSkullTranslations, [{}], fun _ => [{}], {},
        ⟨0.57735, -0.57735, 0.57735⟩⟩).mShadowedSkullRitem.numFramesDirty = 3 := by
  obtain ⟨h1, h2, ⟨it, hit, hw, hd⟩, ⟨it2, hit2, hw2, hd2⟩, h5⟩ :=
    c6_key_a_updates_skull_and_reflections 0 1 (1 / 2)
      ⟨0, initialSkullTranslations, [{}], fun _ => [{}], {},
        ⟨0.57735, -0.57735, 0.57735⟩⟩ .Front rfl rfl ⟨_, rfl⟩ ⟨_, rfl⟩
  have hval : (-4 - 2 * (1 / 2 : ℚ)) = -5 := by norm_num
  rw [hval] at h1 h2 hw
  refine ⟨h1, ?_, ?_, h5⟩
  · rw [hit]
    simp [hw, hd, h2]
  · rw [hit2]
    simp [hd2]

theorem updateAt_cons_zero {α : Type} (b : α) (bs : List α) (f : α → α) :
    updateAt (b :: bs) 0 f = f b :: bs := rfl

theorem updateAt_cons_succ {α : Type} (b : α) (bs : List α) (n : Nat) (f : α → α) :
    updateAt (b :: bs) (n + 1) f = b :: updateAt bs n f := by
  unfold updateAt
  rw [List.get?_eq_getElem?]
  cases h : bs[n]? <;> simp [List.get?_eq_getElem?, h, List.set]

theorem updateAt_map_eq {α β : Type} (f : α → α) (g : α → β)
    (h : ∀ a, g (f a) = g a) :
    ∀ (l : List α) (i : Nat), (updateAt l i f).map g = l.map g := by
  intro l
  induction l with
  | nil => intro i; rfl
  | cons b bs ih =>
    intro i
    cases i with
    | zero => simp [updateAt_cons_zero, h]
    | succ n => simp [updateAt_cons_succ, ih]

/-- C5: with `Models/skull.txt` missing, `BuildSkullGeometry` shows the
user-visible notification and registers nothing, so `mGeometries` holds no
`"skullGeo"` mesh — and the subsequent `BuildRenderItems` then dereferences
that null geometry reference (`skullRitem->Geo->DrawArgs["skull"]`) and
fails, contradicting the claim's "continues without crashing".  `none` is
the modelled null-pointer dereference. -/
theorem c5_missing_skull_file_crashes_build :
    (buildSkullGeometry none).2 = true ∧
    mGeometries none "skullGeo" = none ∧
    buildRenderItems (mGeometries none) = none :=
  ⟨rfl, rfl, rfl⟩

/-- C7: in the constructed scene (for any skull file contents) the 23
render items receive `ObjCBIndex` values that are pairwise distinct and
form exactly the contiguous range 0..22; and the indices are stable — the
per-frame object-constant update and the keyboard handler never change any
item's `ObjCBIndex`. -/
theorem c7_objcb_indices_unique_contiguous :
    (∀ d : SkullData,
      (buildRenderItems (mGeometries (some d))).map
        (fun r => r.1.map (fun e => e.objCBIndex)) =
      some [3, 4, 5, 6, 7, 8, 10, 11, 12, 13, 14, 15, 0, 1, 2, 9,
        16, 17, 18, 19, 20, 21, 22]) ∧
    [3, 4, 5, 6, 7, 8, 10, 11, 12, 13, 14, 15, 0, 1, 2, 9,
      16, 17, 18, 19, 20, 21, 22].Nodup ∧
    [3, 4, 5, 6, 7, 8, 10, 11, 12, 13, 14, 15, 0, 1, 2, 9,
      16, 17, 18, 19, 20, 21, 22].toFinset = Finset.range 23 ∧
    (∀ d : SkullData,
      (buildRenderItems (mGeometries (some d))).map (fun r => r.1.length) = some 23) ∧
    (∀ (e : RenderItem) (cb : ObjectCB),
      (updateObjectCBItem e cb).1.objCBIndex = e.objCBIndex) ∧
    (∀ (rc rs dt : ℚ) (keys : KeyState) (s : SkullScene),
      (onKeyboardInput rc rs keys dt s).mSkulls.map (fun e => e.objCBIndex) =
        s.mSkulls.map (fun e => e.objCBIndex) ∧
      (∀ j, ((onKeyboardInput rc rs keys dt s).mReflectedSkulls j).map
          (fun e => e.objCBIndex) =
        (s.mReflectedSkulls j).map (fun e => e.objCBIndex)) ∧
      (onKeyboardInput rc rs keys dt s).mShadowedSkullRitem.objCBIndex =
        s.mShadowedSkullRitem.objCBIndex) := by
  refine ⟨fun _ => rfl, by decide, by decide, fun _ => rfl, fun e cb => ?_, ?_⟩
  · unfold updateObjectCBItem
    split <;> rfl
  · intro rc rs dt keys s
    refine ⟨?_, fun j => ?_, rfl⟩ <;>
      · simp only [onKeyboardInput]
        refine (updateAt_map_eq _ _ ?_ _ _).trans (updateAt_map_eq _ _ ?_ _ _) <;>
          exact fun a => rfl

/-- C10: the room geometry's draw-argument table registers only the six
mirror submeshes, so the floor and wall items' lookups of the never-
registered keys `"floor"` and `"wall"` return the value-initialized submesh
with index count 0; consequently (for any skull file contents) the first
two opaque-pass draws — the floor and wall items — are indexed draws of
zero indices, rendering nothing. -/
theorem c10_floor_wall_draw_nothing :
    roomGeo.drawArgs.map Prod.fst =
      ["mirrorFront", "mirrorTop", "mirrorLeft", "mirrorRight",
       "mirrorBack", "mirrorBottom"] ∧
    roomGeo.lookupDrawArgs "floor" = {} ∧
    roomGeo.lookupDrawArgs "wall" = {} ∧
    (∀ d : SkullData,
      (buildRenderItems (mGeometries (some d))).map
        (fun r => r.2.map (fun e => (e.matName, e.indexCount))) =
      some [("checkertile", 0), ("bricks", 0), ("skullMat", 3 * d.tcount),
        ("skullMat", 3 * d.tcount)]) ∧
    (∀ d : SkullData,
      (buildRenderItems (mGeometries (some d))).map
        (fun r => (drawRenderItemsCalls r.2).take 2) =
      some [⟨0, 1, 0, 0⟩, ⟨0, 1, 0, 0⟩]) :=
  ⟨rfl, rfl, rfl, fun _ => rfl, fun _ => rfl⟩
